import Mathlib

/-!
# Verification of the greenlight-movie-api admission-control and lifecycle core

Shallow embedding of the concurrency/lifecycle core of the repository:

* the `rateLimit` middleware (`cmd/api/middleware.go`): a global token-bucket
  limiter consulted before a per-client limiter registry (`ipClientInfoMap`),
  with a periodic idle-entry sweep;
* `background` (`cmd/api/helpers.go`): fire-and-forget goroutines tracked by a
  shared `sync.WaitGroup`, with panic recovery in a deferred function;
* `serve` (`cmd/api/server.go`): graceful shutdown via a signal-handling
  goroutine, `srvPtr.Shutdown`, and a `shutdownErrorCh` completion channel;
* the tail of `main` (`cmd/api/main.go`): logging `serve`'s error and exiting.

Timestamps and durations are rationals (seconds); Go's `float64` token
accounting is modelled with exact rational arithmetic.
-/

namespace Greenlight

/-- Modelled from the spec: the token-bucket semantics of the external
`rate.Limiter` collaborator (`golang.org/x/time/rate`), which is not part of
this repository.  Per the spec's data model: capacity, refill rate per second,
currently available tokens, and the time of the last (lazy) refill. -/
structure TokenBucket where
  capacity : ℚ
  refillRate : ℚ
  available : ℚ
  lastRefill : ℚ
deriving DecidableEq

/-- Modelled from the spec: lazy refill at consult time,
`available = min(capacity, available + elapsed*rate)`. -/
def refill (now : ℚ) (b : TokenBucket) : TokenBucket :=
  { b with
    available := min b.capacity (b.available + (now - b.lastRefill) * b.refillRate)
    lastRefill := now }

/-- Modelled from the spec: `Allow()` on a `rate.Limiter` — refill lazily, then
consume one token when at least one is available.  Returns the decision and the
updated bucket (the bucket state advances even on a refusal). -/
def limiterAllow (now : ℚ) (b : TokenBucket) : Bool × TokenBucket :=
  let b' := refill now b
  if 1 ≤ b'.available then (true, { b' with available := b'.available - 1 })
  else (false, b')

/-- Modelled from the spec: `rate.NewLimiter(r, b)` — a fresh limiter with
burst capacity `b`, refill rate `r`, starting with a full bucket. -/
def rateNewLimiter (r : ℚ) (burst : ℤ) (now : ℚ) : TokenBucket :=
  { capacity := (burst : ℚ), refillRate := r, available := (burst : ℚ), lastRefill := now }

/-- The `rateLimit` fields of the `config` struct (`cmd/api/main.go`). -/
structure RateLimitConfig where
  maxGlobalBurstReq : ℤ
  globalReqFillRate : ℚ
  maxIndividualBurstReq : ℤ
  individualReqFillRate : ℚ
  shouldRateLimit : Bool
deriving DecidableEq

/-- The `clientInfo` struct of `rateLimit` (`cmd/api/middleware.go`): a
per-client limiter and the client's last-activity timestamp. -/
structure clientInfo where
  limiterPtr : TokenBucket
  lastSeen : ℚ
deriving DecidableEq

/-- The mutable state shared by all requests inside the `rateLimit` closure:
the hardcoded `globalLimiter` and the `ipClientInfoMap` guarded by `mut`.
The Go map keyed by `IPAddr` is embedded as an association list. -/
structure RateLimitState where
  globalLimiter : TokenBucket
  ipClientInfoMap : List (String × clientInfo)
deriving DecidableEq

/-- Go map read `m[ip]`: first binding of the key, if any. -/
def lookupClient : List (String × clientInfo) → String → Option clientInfo
  | [], _ => none
  | (k, v) :: rest, ip => if k = ip then some v else lookupClient rest ip

/-- Go map write `m[ip] = ci`: replace the binding if present, insert it
otherwise. -/
def upsertClient : List (String × clientInfo) → String → clientInfo → List (String × clientInfo)
  | [], ip, ci => [(ip, ci)]
  | (k, v) :: rest, ip, ci =>
      if k = ip then (k, ci) :: rest else (k, v) :: upsertClient rest ip ci

/-- `middleware.go` lines 177-184: the entry created for a first-time client —
a fresh limiter built from the configured per-client fill rate and burst.  The
struct literal leaves `lastSeen` at its zero value. -/
def freshClientEntry (cfg : RateLimitConfig) (now : ℚ) : clientInfo :=
  { limiterPtr := rateNewLimiter cfg.individualReqFillRate cfg.maxIndividualBurstReq now
    lastSeen := 0 }

/-- `middleware.go` lines 177-192: the client's entry after the lookup-or-create
and the unconditional `lastSeen = time.Now()` refresh. -/
def clientEntryFor (cfg : RateLimitConfig) (now : ℚ) (ip : String)
    (st : RateLimitState) : clientInfo :=
  let base :=
    match lookupClient st.ipClientInfoMap ip with
    | some ci => ci
    | none => freshClientEntry cfg now
  { base with lastSeen := now }

/-- Admission outcomes of the `rateLimit` request handler: proceed to
`next.ServeHTTP`, or one of the two 429 responses
(`globalRateLimitExceededResponse` / `rateLimitExceededResponse`). -/
inductive Admission where
  | allowed
  | rejectedGlobal
  | rejectedClient
deriving DecidableEq

/-- The per-request body of `rateLimit` (`cmd/api/middleware.go` lines
149-206) as a state transition.  In source order: if rate limiting is
disabled, pass through; otherwise consult `globalLimiter.Allow()` and return
the global 429 before touching any per-client state; otherwise create the
client's entry if absent, refresh `lastSeen`, and consult the client's own
limiter (`clientInfo.limiterPtr.Allow()`), whose consumption is written back
through the pointer. -/
def rateLimitStep (cfg : RateLimitConfig) (now : ℚ) (ip : String)
    (st : RateLimitState) : Admission × RateLimitState :=
  if cfg.shouldRateLimit then
    let gRes := limiterAllow now st.globalLimiter
    if gRes.1 then
      let entry := clientEntryFor cfg now ip st
      let cRes := limiterAllow now entry.limiterPtr
      let m := upsertClient st.ipClientInfoMap ip { entry with limiterPtr := cRes.2 }
      if cRes.1 then (Admission.allowed, ⟨gRes.2, m⟩)
      else (Admission.rejectedClient, ⟨gRes.2, m⟩)
    else (Admission.rejectedGlobal, { st with globalLimiter := gRes.2 })
  else (Admission.allowed, st)

/-- A sequence of requests (timestamp, client IP) fed through `rateLimit`,
returning the admission decisions in order and the final shared state. -/
def rateLimitRun (cfg : RateLimitConfig) :
    List (ℚ × String) → RateLimitState → List Admission × RateLimitState
  | [], st => ([], st)
  | (now, ip) :: rest, st =>
      let r := rateLimitStep cfg now ip st
      let rs := rateLimitRun cfg rest r.2
      (r.1 :: rs.1, rs.2)

/-- `middleware.go` line 124: `globalLimiter := rate.NewLimiter(25, 100)` —
the global limiter is constructed with hardcoded fill rate 25 and burst 100. -/
def globalLimiterSource (t0 : ℚ) : TokenBucket :=
  rateNewLimiter 25 100 t0

/-- A global bucket as the spec's words describe it, for comparison with
`globalLimiterSource`: burst capacity `maxGlobalBurstReq` and refill rate
`globalReqFillRate` taken from the configuration. -/
def specGlobalBucket (cfg : RateLimitConfig) (t0 : ℚ) : TokenBucket :=
  rateNewLimiter cfg.globalReqFillRate cfg.maxGlobalBurstReq t0

/-- `middleware.go` lines 140-144: the eviction sweep — delete every entry
whose `lastSeen` is more than `3*time.Minute` (180 seconds) old. -/
def sweepClients (now : ℚ) (m : List (String × clientInfo)) :
    List (String × clientInfo) :=
  m.filter fun kv => decide (now - kv.2.lastSeen ≤ 180)

/-! ## `background` (`cmd/api/helpers.go`): fire-and-forget tasks -/

/-- How the body `fn` of a background task terminates: normally, or by a panic
carrying (the `%v` formatting of) a value. -/
inductive BodyResult where
  | normal
  | panicked (msg : String)
deriving DecidableEq

/-- The observable effects of one run of the goroutine launched by
`background` (`helpers.go` lines 269-281). -/
structure WrapperRun where
  loggedErrors : List String
  wgDoneCalled : Bool
  panicPropagated : Bool
deriving DecidableEq

/-- The goroutine body of `background`: run `fn()`, then the deferred
function.  The deferred function calls `recover()` — which returns the panic
value when `fn` panicked, stopping the panic from propagating further — logs
`fmt.Sprintf("%v", err)` through `appPtr.logger.Error` when that value is
non-nil, and then calls `appPtr.wg.Done()` unconditionally.  Since the only
panic source in the goroutine is `fn()` and `recover()` intercepts it, no
panic ever escapes the goroutine. -/
def goWrapper (body : BodyResult) : WrapperRun :=
  match body with
  | BodyResult.normal =>
      { loggedErrors := [], wgDoneCalled := true, panicPropagated := false }
  | BodyResult.panicked msg =>
      { loggedErrors := [msg], wgDoneCalled := true, panicPropagated := false }

/-- The shared completion tracker: the value of `appPtr.wg`'s counter together
with the multiset of launched-but-unfinished background tasks (identified by
an opaque task id). -/
structure RunnerState where
  counter : ℤ
  running : Multiset String
deriving DecidableEq

/-- The process starts with no background tasks and a zero counter. -/
def runnerInit : RunnerState := ⟨0, 0⟩

/-- Concurrent evolution of the task tracker, from `background`
(`helpers.go` lines 267-282): a `launch` performs `appPtr.wg.Add(1)` before
the goroutine starts; a `finish` of a running task performs the
`appPtr.wg.Done()` of the task's deferred function — which `goWrapper` shows
is called regardless of whether the body panicked. -/
inductive RunnerStep : RunnerState → RunnerState → Prop where
  | launch (t : String) (c : ℤ) (R : Multiset String) :
      RunnerStep ⟨c, R⟩ ⟨c + 1, t ::ₘ R⟩
  | finish (t : String) (body : BodyResult) (c : ℤ) (R : Multiset String)
      (hmem : t ∈ R) (hdone : (goWrapper body).wgDoneCalled = true) :
      RunnerStep ⟨c, R⟩ ⟨c - 1, R.erase t⟩

/-- Reachability of a tracker state from process start by any interleaving of
launches and completions. -/
def RunnerReachable (s : RunnerState) : Prop :=
  Relation.ReflTransGen RunnerStep runnerInit s

/-! ## `serve` (`cmd/api/server.go`): graceful shutdown -/

/-- Errors at the serving boundary: `http.ErrServerClosed` (returned by
`ListenAndServe` after `Shutdown` is called) versus any other error value. -/
inductive GoError where
  | errServerClosed
  | other (msg : String)
deriving DecidableEq

/-- The blocking operations `serve` and its signal-handling goroutine perform,
in the order they occur in `server.go`. -/
inductive ServeEvent where
  | signalReceived
  | shutdownCalled
  | shutdownErrSent
  | shutdownErrReceived
  | wgWaitCalled
deriving DecidableEq

/-- `server.go` lines 29-64, the signal-handling goroutine: block on the
buffered `quit` channel, call `srvPtr.Shutdown(ctx)`, and send its result on
`shutdownErrorCh`.  No other operation — in particular no `wg.Wait()` —
appears in it. -/
def shutdownGoroutineTrace : List ServeEvent :=
  [ServeEvent.signalReceived, ServeEvent.shutdownCalled, ServeEvent.shutdownErrSent]

/-- `server.go` lines 70-92, the main flow after `ListenAndServe` returns with
`lasErr`: when `lasErr` is not `http.ErrServerClosed` it returns at once; only
otherwise does it block receiving on `shutdownErrorCh`. -/
def serveMainTrace (lasErr : GoError) : List ServeEvent :=
  if lasErr = GoError.errServerClosed then [ServeEvent.shutdownErrReceived] else []

/-- All blocking operations performed during one run of `serve` whose
`ListenAndServe` call returned `lasErr`. -/
def serveTrace (lasErr : GoError) : List ServeEvent :=
  shutdownGoroutineTrace ++ serveMainTrace lasErr

/-- The outcome of one run of `serve`: the error value it returns (`none` for
a nil return) and whether the main flow received from `shutdownErrorCh`
before returning. -/
structure ServeRun where
  result : Option GoError
  recvShutdownErrCh : Bool
deriving DecidableEq

/-- `serve` (`server.go` lines 66-92) as a function of the error returned by
`srvPtr.ListenAndServe()` and the result of `srvPtr.Shutdown(ctx)` sent on
`shutdownErrorCh` (`none` for a clean drain): a non-`ErrServerClosed`
listen-and-serve error is returned immediately; otherwise `serve` blocks on
`shutdownErrorCh` and returns the drain error, or nil when the drain was
clean. -/
def serve (lasErr : GoError) (shutdownErr : Option GoError) : ServeRun :=
  if lasErr = GoError.errServerClosed then
    { result := shutdownErr, recvShutdownErrCh := true }
  else
    { result := some lasErr, recvShutdownErrCh := false }

/-! ## The tail of `main` (`cmd/api/main.go` lines 198-214) -/

/-- What `main` does after `appPtr.serve()` returns: which error (if any) it
logs, and the status code passed to `os.Exit`. -/
structure MainOutcome where
  loggedError : Option GoError
  exitCode : ℕ
deriving DecidableEq

/-- `main.go` lines 198-214: `err = appPtr.serve()`; `if err != nil`, log it;
then `os.Exit(1)` — unconditionally, on every path. -/
def mainTail (serveResult : Option GoError) : MainOutcome :=
  { loggedError := serveResult, exitCode := 1 }

/-! ## Concrete inputs used by scenario theorems and witnesses -/

/-- The client identity of the spec's exhaustion scenario. -/
def scenarioIP : String := "1.2.3.4"

/-- The spec's scenario configuration: rate limiting on; the per-client
parameters (burst 20, rate 0) are generous so only the global ceiling bites. -/
def cfgScenario : RateLimitConfig :=
  { maxGlobalBurstReq := 10, globalReqFillRate := 0
    maxIndividualBurstReq := 20, individualReqFillRate := 0
    shouldRateLimit := true }

/-- The scenario's initial shared state: a global bucket of capacity 10 and
refill rate 0, and an empty client registry. -/
def stScenario : RateLimitState :=
  { globalLimiter := rateNewLimiter 0 10 0, ipClientInfoMap := [] }

/-- `n` rapid admission checks from the scenario client, all at time 0. -/
def scenarioCalls (n : ℕ) : List (ℚ × String) :=
  List.replicate n (0, scenarioIP)

/-- A configuration whose global fields differ from the hardcoded
`rate.NewLimiter(25, 100)` values. -/
def cfgIgnored : RateLimitConfig :=
  { maxGlobalBurstReq := 10, globalReqFillRate := 0
    maxIndividualBurstReq := 4, individualReqFillRate := 2
    shouldRateLimit := true }

/-- A shared state whose global bucket is empty (capacity 10, no tokens, no
refill), used to exercise the global-rejection path. -/
def stEmptyGlobal : RateLimitState :=
  { globalLimiter := { capacity := 10, refillRate := 0, available := 0, lastRefill := 0 }
    ipClientInfoMap := [] }

/-- A configuration whose per-client buckets have zero burst, so every client
is rejected by its own limiter while the global bucket still has tokens. -/
def cfgZeroClientBurst : RateLimitConfig :=
  { maxGlobalBurstReq := 100, globalReqFillRate := 25
    maxIndividualBurstReq := 0, individualReqFillRate := 0
    shouldRateLimit := true }

/-- A shared state with the source's hardcoded global limiter and an empty
registry. -/
def stFreshSource : RateLimitState :=
  { globalLimiter := globalLimiterSource 0, ipClientInfoMap := [] }

/-- A client identity used by witnesses. -/
def witnessIP : String := "203.0.113.9"

/-- A task identifier used to exhibit an outstanding background task. -/
def emailTask : String := "send-welcome-email"

/-- A `ListenAndServe` failure unrelated to shutdown. -/
def listenerFault : GoError := GoError.other ("listener failure")

/-- A drain failure from `srvPtr.Shutdown`. -/
def drainFault : GoError := GoError.other ("drain deadline exceeded")

/-! ## Helper lemmas -/

/-- A Go map write is visible to an immediate read of the same key. -/
theorem lookupClient_upsert_self (m : List (String × clientInfo)) (ip : String)
    (ci : clientInfo) : lookupClient (upsertClient m ip ci) ip = some ci := by
  induction m with
  | nil => simp [upsertClient, lookupClient]
  | cons kv rest ih =>
      obtain ⟨k, v⟩ := kv
      by_cases hk : k = ip
      · simp [upsertClient, lookupClient, hk]
      · simp [upsertClient, lookupClient, hk, ih]

/-- A map entry that satisfies the sweep's keep-predicate is still found after
filtering, with the same value. -/
theorem lookupClient_filter (m : List (String × clientInfo)) (ip : String)
    (v : clientInfo) (p : String × clientInfo → Bool)
    (hlk : lookupClient m ip = some v) (hp : p (ip, v) = true) :
    lookupClient (m.filter p) ip = some v := by
  induction m with
  | nil => simp [lookupClient] at hlk
  | cons kv rest ih =>
      obtain ⟨k, w⟩ := kv
      by_cases hk : k = ip
      · subst hk
        rw [lookupClient, if_pos rfl] at hlk
        obtain rfl : w = v := by injection hlk
        rw [List.filter_cons, if_pos hp, lookupClient, if_pos rfl]
      · rw [lookupClient, if_neg hk] at hlk
        rw [List.filter_cons]
        by_cases hw : p (k, w) = true
        · rw [if_pos hw, lookupClient, if_neg hk]
          exact ih hlk
        · rw [if_neg hw]
          exact ih hlk

/-- When `Allow()` grants a token, the bucket it leaves behind holds exactly
one token fewer than the lazily refilled level. -/
theorem limiterAllow_available_of_allowed (now : ℚ) (b : TokenBucket)
    (h : (limiterAllow now b).1 = true) :
    (limiterAllow now b).2.available = (refill now b).available - 1 := by
  by_cases hc : 1 ≤ (refill now b).available
  · simp [limiterAllow, hc]
  · simp [limiterAllow, hc] at h

/-! ## Claim theorems -/

/-- C1: the claim says `serve` waits for the background-task counter to reach
zero before the process may stop.  The code contains no `wg.Wait()` at all:
no blocking operation of `serve` (in either goroutine) touches the WaitGroup,
a state with one launched, unfinished background task is reachable, and
`serve` nevertheless completes its graceful-shutdown path with a nil result.
So Draining may become Stopped while the outstanding-task count is nonzero. -/
theorem serve_stops_without_waiting_for_tasks :
    (∀ lasErr : GoError, ServeEvent.wgWaitCalled ∉ serveTrace lasErr) ∧
    RunnerReachable ⟨1, {emailTask}⟩ ∧
    (serve GoError.errServerClosed none).result = none := by
  refine ⟨?_, ?_, rfl⟩
  · intro lasErr
    cases lasErr <;>
      simp [serveTrace, serveMainTrace, shutdownGoroutineTrace, serve]
  · have h : RunnerStep runnerInit ⟨1, {emailTask}⟩ := by
      have hstep := RunnerStep.launch emailTask 0 0
      simpa [runnerInit] using hstep
    exact Relation.ReflTransGen.single h

/-- C2: in every state reachable by interleaved launches and completions of
background tasks, the WaitGroup counter equals the number of
launched-but-unfinished tasks; hence it is never negative, and it is exactly
zero once every launched task has finished. -/
theorem outstanding_count_eq_running_tasks (s : RunnerState)
    (h : RunnerReachable s) :
    s.counter = (Multiset.card s.running : ℤ) ∧ 0 ≤ s.counter ∧
    (s.running = 0 → s.counter = 0) := by
  have key : s.counter = (Multiset.card s.running : ℤ) := by
    induction h with
    | refl => simp [runnerInit]
    | tail hr hstep ih =>
        cases hstep with
        | launch t c R =>
            simp only [] at ih ⊢
            rw [Multiset.card_cons]
            push_cast
            omega
        | finish t body c R hmem hdone =>
            simp only [] at ih ⊢
            rw [Multiset.card_erase_of_mem hmem, Nat.pred_eq_sub_one]
            have hpos : 0 < Multiset.card R := Multiset.card_pos_iff_exists_mem.mpr ⟨t, hmem⟩
            omega
  refine ⟨key, ?_, ?_⟩
  · rw [key]
    exact_mod_cast Nat.zero_le _
  · intro h0
    rw [key, h0]
    simp

/-- C2 witness: the theorem applied to the initial state, reachable by the
empty interleaving. -/
theorem outstanding_count_eq_running_tasks_witness :
    runnerInit.counter = (Multiset.card runnerInit.running : ℤ) ∧
    0 ≤ runnerInit.counter ∧
    (runnerInit.running = 0 → runnerInit.counter = 0) :=
  outstanding_count_eq_running_tasks runnerInit Relation.ReflTransGen.refl

/-- C3 counterexample: when `ListenAndServe` stops with a fault unrelated to
shutdown, `serve` returns at once without receiving the drain outcome on
`shutdownErrorCh` — refuting the claim that the main flow waits on the
completion channel for every cause of the stop. -/
theorem serve_unrelated_fault_skips_drain_channel :
    (serve listenerFault (some drainFault)).recvShutdownErrCh = false ∧
    ServeEvent.shutdownErrReceived ∉ serveTrace listenerFault := by
  constructor
  · rfl
  · simp [serveTrace, serveMainTrace, shutdownGoroutineTrace, listenerFault]

/-- C3 amended: the main flow of `serve` receives the drain outcome on the
single-use completion channel exactly when `ListenAndServe` stopped because of
the deliberate shutdown (`http.ErrServerClosed`); on an unrelated fault it
returns without waiting for the drain sequence. -/
theorem serve_receives_drain_outcome_iff_closed (lasErr : GoError)
    (d : Option GoError) :
    ((serve lasErr d).recvShutdownErrCh = true ↔ lasErr = GoError.errServerClosed) ∧
    (ServeEvent.shutdownErrReceived ∈ serveTrace lasErr ↔
      lasErr = GoError.errServerClosed) := by
  by_cases h : lasErr = GoError.errServerClosed <;>
    simp [serve, serveTrace, serveMainTrace, shutdownGoroutineTrace, h]

/-- C4 counterexample: in the spec's scenario (global bucket of capacity 10
and rate 0, 11 rapid checks from one fresh client) call #11 is indeed
rejected globally, but the registry is not left with zero entries: the ten
admitted calls created the client's entry, so the map holds one entry. -/
theorem global_exhaustion_scenario_counterexample :
    (rateLimitRun cfgScenario (scenarioCalls 11) stScenario).1 =
      List.replicate 10 Admission.allowed ++ [Admission.rejectedGlobal] ∧
    (rateLimitRun cfgScenario (scenarioCalls 11) stScenario).2.ipClientInfoMap.length ≠ 0 := by
  norm_num [rateLimitRun, rateLimitStep, limiterAllow, refill, clientEntryFor,
    lookupClient, upsertClient, freshClientEntry, rateNewLimiter, cfgScenario,
    stScenario, scenarioCalls, scenarioIP, List.replicate]

/-- C4 amended: in the scenario, the first ten checks are admitted, call #11
returns the global-overload rejection and touches no per-client state (the
registry after call #11 equals the registry after call #10), and the whole
sequence leaves exactly one registry entry — the one the ten admitted calls
created for the client. -/
theorem global_exhaustion_scenario_amended :
    (rateLimitRun cfgScenario (scenarioCalls 11) stScenario).1 =
      List.replicate 10 Admission.allowed ++ [Admission.rejectedGlobal] ∧
    (rateLimitRun cfgScenario (scenarioCalls 11) stScenario).2.ipClientInfoMap =
      (rateLimitRun cfgScenario (scenarioCalls 10) stScenario).2.ipClientInfoMap ∧
    (rateLimitRun cfgScenario (scenarioCalls 11) stScenario).2.ipClientInfoMap.length = 1 := by
  norm_num [rateLimitRun, rateLimitStep, limiterAllow, refill, clientEntryFor,
    lookupClient, upsertClient, freshClientEntry, rateNewLimiter, cfgScenario,
    stScenario, scenarioCalls, scenarioIP, List.replicate]

/-- C5: with rate limiting enabled, whenever the global limiter cannot supply
a token the request is rejected with the global-overload outcome and the
per-client registry is left exactly as it was: no entry is created or
updated, no `lastSeen` refresh occurs, and no per-client token is consumed. -/
theorem global_reject_leaves_client_state_untouched
    (cfg : RateLimitConfig) (now : ℚ) (ip : String) (st : RateLimitState)
    (hOn : cfg.shouldRateLimit = true)
    (hG : (limiterAllow now st.globalLimiter).1 = false) :
    (rateLimitStep cfg now ip st).1 = Admission.rejectedGlobal ∧
    (rateLimitStep cfg now ip st).2.ipClientInfoMap = st.ipClientInfoMap := by
  simp [rateLimitStep, hOn, hG]

/-- C5 witness: a fresh client hitting an empty global bucket. -/
theorem global_reject_leaves_client_state_untouched_witness :
    cfgIgnored.shouldRateLimit = true ∧
    (limiterAllow 0 stEmptyGlobal.globalLimiter).1 = false ∧
    ((rateLimitStep cfgIgnored 0 witnessIP stEmptyGlobal).1 = Admission.rejectedGlobal ∧
     (rateLimitStep cfgIgnored 0 witnessIP stEmptyGlobal).2.ipClientInfoMap =
       stEmptyGlobal.ipClientInfoMap) :=
  ⟨rfl, by norm_num [limiterAllow, refill, stEmptyGlobal],
   global_reject_leaves_client_state_untouched cfgIgnored 0 witnessIP stEmptyGlobal
     rfl (by norm_num [limiterAllow, refill, stEmptyGlobal])⟩

/-- C6: the claim says the global token bucket uses the configured
`maxGlobalBurstReq` and `globalReqFillRate`.  The source constructs it as
`rate.NewLimiter(25, 100)`: burst 100 and rate 25 regardless of the
configuration, so for `cfgIgnored` (configured burst 10, rate 0) the actual
global limiter differs from the configured bucket in both fields — while the
per-client limiter is indeed built from the configured per-client values. -/
theorem global_limiter_ignores_configured_values :
    (globalLimiterSource 0).capacity = 100 ∧
    (globalLimiterSource 0).refillRate = 25 ∧
    (specGlobalBucket cfgIgnored 0).capacity = 10 ∧
    (specGlobalBucket cfgIgnored 0).refillRate = 0 ∧
    (globalLimiterSource 0).capacity ≠ (specGlobalBucket cfgIgnored 0).capacity ∧
    (globalLimiterSource 0).refillRate ≠ (specGlobalBucket cfgIgnored 0).refillRate ∧
    (freshClientEntry cfgIgnored 0).limiterPtr =
      rateNewLimiter cfgIgnored.individualReqFillRate cfgIgnored.maxIndividualBurstReq 0 := by
  norm_num [globalLimiterSource, specGlobalBucket, rateNewLimiter,
    freshClientEntry, cfgIgnored]

/-- C7: `serve` returns nil exactly when `ListenAndServe` stopped with
`http.ErrServerClosed` and the drain returned no error; otherwise it returns
the first non-nil error, a non-`ErrServerClosed` listen-and-serve fault taking
priority over any drain error. -/
theorem serve_outcome_reconciliation (lasErr : GoError) (d : Option GoError) :
    ((serve lasErr d).result = none ↔
      lasErr = GoError.errServerClosed ∧ d = none) ∧
    (serve lasErr d).result =
      (if lasErr = GoError.errServerClosed then d else some lasErr) := by
  by_cases h : lasErr = GoError.errServerClosed <;> simp [serve, h]

/-- C8: whatever the body of a background task does — finish normally or
panic — the goroutine wrapper never propagates a panic, always performs the
deferred `wg.Done()`, and logs exactly the recovered panic value (and nothing
on a normal finish). -/
theorem background_contains_task_panics (body : BodyResult) :
    (goWrapper body).panicPropagated = false ∧
    (goWrapper body).wgDoneCalled = true ∧
    (goWrapper body).loggedErrors =
      (match body with
       | BodyResult.normal => []
       | BodyResult.panicked msg => [msg]) := by
  cases body <;> simp [goWrapper]

/-- C9 counterexample: when `serve` returns nil (graceful shutdown with no
fault), `main` still calls `os.Exit(1)`: the exit status is 1, not a success
status — refuting the claim that a nil outcome yields a success exit. -/
theorem main_exits_failure_after_clean_shutdown :
    (mainTail none).exitCode = 1 ∧ (mainTail none).exitCode ≠ 0 ∧
    (mainTail none).loggedError = none := by
  decide

/-- C9 amended: the process exit status is the constant 1 regardless of the
outcome `serve` produced; the only thing the outcome determines is whether an
error is logged before exiting. -/
theorem main_exit_status_constant (r : Option GoError) :
    (mainTail r).exitCode = 1 ∧ (mainTail r).loggedError = r :=
  ⟨rfl, rfl⟩

/-- C10: when a request passes the global check but is rejected by its own
per-client limiter, the mutations are kept: the global bucket keeps exactly
one token consumed (no rollback), the client's registry entry exists with its
limiter state written back and `lastSeen` refreshed to the request time, and
a sweep run anywhere up to the idle threshold later still finds the entry. -/
theorem client_reject_keeps_mutations
    (cfg : RateLimitConfig) (now : ℚ) (ip : String) (st : RateLimitState)
    (hOn : cfg.shouldRateLimit = true)
    (hG : (limiterAllow now st.globalLimiter).1 = true)
    (hC : (limiterAllow now (clientEntryFor cfg now ip st).limiterPtr).1 = false) :
    (rateLimitStep cfg now ip st).1 = Admission.rejectedClient ∧
    (rateLimitStep cfg now ip st).2.globalLimiter = (limiterAllow now st.globalLimiter).2 ∧
    (limiterAllow now st.globalLimiter).2.available =
      (refill now st.globalLimiter).available - 1 ∧
    lookupClient (rateLimitStep cfg now ip st).2.ipClientInfoMap ip =
      some { limiterPtr := (limiterAllow now (clientEntryFor cfg now ip st).limiterPtr).2
             lastSeen := now } ∧
    lookupClient
      (sweepClients (now + 180) (rateLimitStep cfg now ip st).2.ipClientInfoMap) ip =
      lookupClient (rateLimitStep cfg now ip st).2.ipClientInfoMap ip := by
  have hstep : rateLimitStep cfg now ip st =
      (Admission.rejectedClient,
        ⟨(limiterAllow now st.globalLimiter).2,
         upsertClient st.ipClientInfoMap ip
           { clientEntryFor cfg now ip st with
             limiterPtr := (limiterAllow now (clientEntryFor cfg now ip st).limiterPtr).2 }⟩) := by
    simp [rateLimitStep, hOn, hG, hC]
  have hlk : lookupClient (rateLimitStep cfg now ip st).2.ipClientInfoMap ip =
      some { clientEntryFor cfg now ip st with
             limiterPtr := (limiterAllow now (clientEntryFor cfg now ip st).limiterPtr).2 } := by
    rw [hstep]
    exact lookupClient_upsert_self _ _ _
  have hentry : ({ clientEntryFor cfg now ip st with
        limiterPtr := (limiterAllow now (clientEntryFor cfg now ip st).limiterPtr).2 } : clientInfo) =
      { limiterPtr := (limiterAllow now (clientEntryFor cfg now ip st).limiterPtr).2
        lastSeen := now } := rfl
  have hp : (fun kv : String × clientInfo =>
        decide (now + 180 - kv.2.lastSeen ≤ 180))
      (ip, { clientEntryFor cfg now ip st with
             limiterPtr := (limiterAllow now (clientEntryFor cfg now ip st).limiterPtr).2 }) = true := by
    simp only [decide_eq_true_eq]
    have : ({ clientEntryFor cfg now ip st with
        limiterPtr := (limiterAllow now (clientEntryFor cfg now ip st).limiterPtr).2 } : clientInfo).lastSeen = now := rfl
    rw [this]
    linarith
  refine ⟨?_, ?_, limiterAllow_available_of_allowed now st.globalLimiter hG, ?_, ?_⟩
  · rw [hstep]
  · rw [hstep]
  · rw [hlk, hentry]
  · rw [hlk]
    show lookupClient (List.filter _ _) ip = _
    exact lookupClient_filter _ ip _ _ hlk hp

/-- C10 witness: a fresh client with a zero-burst per-client bucket hitting
the source's full global limiter at time 0. -/
theorem client_reject_keeps_mutations_witness :
    cfgZeroClientBurst.shouldRateLimit = true ∧
    (limiterAllow 0 stFreshSource.globalLimiter).1 = true ∧
    (limiterAllow 0 (clientEntryFor cfgZeroClientBurst 0 witnessIP stFreshSource).limiterPtr).1 = false ∧
    ((rateLimitStep cfgZeroClientBurst 0 witnessIP stFreshSource).1 = Admission.rejectedClient ∧
     (rateLimitStep cfgZeroClientBurst 0 witnessIP stFreshSource).2.globalLimiter =
       (limiterAllow 0 stFreshSource.globalLimiter).2 ∧
     (limiterAllow 0 stFreshSource.globalLimiter).2.available =
       (refill 0 stFreshSource.globalLimiter).available - 1 ∧
     lookupClient (rateLimitStep cfgZeroClientBurst 0 witnessIP stFreshSource).2.ipClientInfoMap witnessIP =
       some { limiterPtr :=
                (limiterAllow 0 (clientEntryFor cfgZeroClientBurst 0 witnessIP stFreshSource).limiterPtr).2
              lastSeen := 0 } ∧
     lookupClient
       (sweepClients (0 + 180)
         (rateLimitStep cfgZeroClientBurst 0 witnessIP stFreshSource).2.ipClientInfoMap) witnessIP =
       lookupClient (rateLimitStep cfgZeroClientBurst 0 witnessIP stFreshSource).2.ipClientInfoMap witnessIP) :=
  ⟨rfl,
   by norm_num [limiterAllow, refill, stFreshSource, globalLimiterSource, rateNewLimiter],
   by norm_num [limiterAllow, refill, clientEntryFor, lookupClient, freshClientEntry,
     rateNewLimiter, stFreshSource, cfgZeroClientBurst],
   client_reject_keeps_mutations cfgZeroClientBurst 0 witnessIP stFreshSource rfl
     (by norm_num [limiterAllow, refill, stFreshSource, globalLimiterSource, rateNewLimiter])
     (by norm_num [limiterAllow, refill, clientEntryFor, lookupClient, freshClientEntry,
       rateNewLimiter, stFreshSource, cfgZeroClientBurst])⟩

end Greenlight
